import Mathlib

/-
Verification of the conversion/merge engine in src/gis_converter__merger.py.

The Python program is a thin orchestration over geopandas/pandas:
`merge_files` reads each uploaded file according to its declared format and
concatenates the resulting GeoDataFrames with `pd.concat`; `save_output`
writes a GeoDataFrame in the requested output format; `main`'s converter
page reads one file and writes it back out.

The shallow embedding below models:
  * a GeoDataFrame as `Frame` (attribute columns, rows of geometry plus
    per-column values, an optional CRS; the dedicated geometry column of a
    GeoDataFrame is held apart from the attribute columns);
  * an uploaded file as `File`: one oracle field per library call the
    program can make on the file's bytes (`zipfile` + `glob` + `read_file`
    for the Shapefile branch, `gpd.read_file` for KML and GeoJSON,
    `pd.read_csv` for CSV), each returning `Except Unit _` where
    `.error` stands for the library call raising an exception;
  * `pd.concat(gdfs, ignore_index=True)` as `pd_concat`, including the
    pandas outer column union in first-seen order with missing values
    filled with NaN/None (`Value.vNull`), the `ValueError` on an empty
    input list, and the geopandas common-CRS rule for the geometry column
    (distinct known CRSs raise `ValueError`; a mix of unknown and one
    known CRS succeeds with a warning, carrying the known CRS);
  * `gpd.GeoDataFrame(df, geometry="geometry")` as `gdfFromTable`: the
    designated column's cells must already be geometry objects (missing
    NaN/None cells are allowed); WKT strings are NOT parsed and make the
    constructor raise `TypeError`;
  * `gdf.to_file` / `gdf.to_json` inside `save_output`: the OGR ESRI
    Shapefile driver rejects collections whose features carry more than
    one geometry type, while `to_json` (GeoJSON) accepts any mix.

Numeric coordinate values are abstracted as integers (no code path ever
computes on coordinates: the program contains no reprojection), and
floating-point attribute cells are not modelled (no claim depends on
them).
-/

set_option linter.unusedVariables false

namespace GisMerger

/-- Tag of a geometry variant, as used by the OGR driver's schema. -/
inductive GeomTag where
  | point | lineString | polygon
  | multiPoint | multiLineString | multiPolygon
  | geometryCollection
deriving DecidableEq

/-- The non-collection geometry variants with their coordinate lists.
Coordinates are abstracted as integer pairs; no code in the program
computes on them. -/
inductive BaseGeometry where
  | point (x y : Int)
  | lineString (coords : List (Int × Int))
  | polygon (rings : List (List (Int × Int)))
  | multiPoint (coords : List (Int × Int))
  | multiLineString (parts : List (List (Int × Int)))
  | multiPolygon (polys : List (List (List (Int × Int))))
deriving DecidableEq

/-- Canonical in-memory geometry: a base variant or a GeometryCollection
of base variants (nesting of collections inside collections is flattened
to one level; no code path in the program inspects it). -/
inductive Geometry where
  | base (g : BaseGeometry)
  | geometryCollection (parts : List BaseGeometry)
deriving DecidableEq

/-- Variant tag of a base geometry. -/
def baseTag : BaseGeometry → GeomTag
  | .point _ _ => .point
  | .lineString _ => .lineString
  | .polygon _ => .polygon
  | .multiPoint _ => .multiPoint
  | .multiLineString _ => .multiLineString
  | .multiPolygon _ => .multiPolygon

/-- Variant tag of a geometry. -/
def geomTag : Geometry → GeomTag
  | .base g => baseTag g
  | .geometryCollection _ => .geometryCollection

/-- A cell value of a DataFrame column: scalar attribute values plus
`vNull` for pandas NaN/None, and `vGeom` for a shapely geometry object
held in a column (pandas cells may hold arbitrary Python objects;
`pd.read_csv` only ever produces scalars, never `vGeom`). -/
inductive Value where
  | vStr (s : String)
  | vInt (n : Int)
  | vBool (b : Bool)
  | vNull
  | vGeom (g : Geometry)
deriving DecidableEq

/-- A row of a GeoDataFrame: the geometry cell (None-geometry rows are
allowed by geopandas) plus the attribute cells, positionally aligned with
the frame's attribute columns. -/
abbrev Row := Option Geometry × List Value

/-- Model of a GeoDataFrame: attribute column names in order, rows, and
the CRS of the geometry column (`none` models geopandas `crs is None`,
i.e. the "unknown" CRS). The dedicated geometry column is held in each
row's first component rather than among `cols`. -/
structure Frame where
  cols : List String
  rows : List Row
  crs : Option String
deriving DecidableEq

/-- Model of a plain pandas DataFrame as produced by `pd.read_csv`:
column names and rows of cells. -/
structure Table where
  cols : List String
  rows : List (List Value)
deriving DecidableEq

deriving instance DecidableEq for Except

/-- An uploaded file, modelled by the outcome of every library call the
program can perform on its bytes. `.error ()` stands for the call raising
an exception. For the Shapefile branch the zip is modelled by the list of
extracted top-level file names, in directory-enumeration order (the order
`Path(tmpdir).glob` yields, which Python documents as arbitrary), paired
with the outcome of `gpd.read_file` on that entry. -/
structure File where
  name : String
  asZipShp : Except Unit (List (String × Except Unit Frame))
  asKML : Except Unit Frame
  asGeoJSON : Except Unit Frame
  asCSV : Except Unit Table
deriving DecidableEq

/-- Does a file name match the glob pattern `*.shp` (ends in ".shp")?
Hidden-file subtleties of `glob` are not modelled. -/
def isShpName (s : String) : Bool :=
  match s.data.reverse with
  | 'p' :: 'h' :: 's' :: '.' :: _ :: _ => true
  | _ => false

/-- Split a CSV row at the first column named "geometry": returns the
geometry cell and the remaining cells in order, or `none` if the row is
shorter than the geometry column's position. -/
def splitGeomCell : List String → List Value → Option (Value × List Value)
  | [], _ => none
  | _ :: _, [] => none
  | c :: cs, v :: vs =>
    if c = "geometry" then some (v, vs)
    else (splitGeomCell cs vs).map (fun p => (p.1, v :: p.2))

/-- Model of geopandas `_ensure_geometry` on one cell: a geometry object
is accepted, NaN/None is accepted as a missing geometry, and any other
value (in particular a WKT string) raises `TypeError`. -/
def ensureGeometry : Value → Except Unit (Option Geometry)
  | .vGeom g => .ok (some g)
  | .vNull => .ok none
  | _ => .error ()

/-- Convert the rows of a CSV table into GeoDataFrame rows by extracting
the "geometry" column from each; fails when any geometry cell is not a
geometry object. -/
def rowsFromTable (cols : List String) : List (List Value) → Except Unit (List Row)
  | [] => .ok []
  | r :: rest =>
    match splitGeomCell cols r with
    | none => .error ()
    | some (gv, others) =>
      match ensureGeometry gv, rowsFromTable cols rest with
      | .ok g, .ok rs => .ok ((g, others) :: rs)
      | .error _, _ => .error ()
      | .ok _, .error e => .error e

/-- Model of `gpd.GeoDataFrame(df, geometry="geometry")` (line 44 of the
source): the "geometry" column becomes the geometry; since no `crs`
argument is passed the resulting frame's CRS is `None`. Raises when a
geometry cell holds a non-geometry value such as a WKT string. -/
def gdfFromTable (t : Table) : Except Unit Frame :=
  match rowsFromTable t.cols t.rows with
  | .ok rs => .ok ⟨t.cols.erase "geometry", rs, none⟩
  | .error _ => .error ()

/-- Outcome of processing one `(file, format)` pair inside the loop of
`merge_files` (lines 21-51 of the source). `skip` is the Shapefile branch
falling through its `if shp_files:` test with no `.shp` entry: nothing is
appended and no error is reported. `exn` is any exception reaching the
`except` clause; `missingGeom` is the explicit `st.error`/`return None`
for a CSV without a geometry column. -/
inductive ReadOutcome where
  | ok (g : Frame)
  | skip
  | exn
  | missingGeom
deriving DecidableEq

/-- Shapefile branch of the loop (lines 23-31): extract the zip, glob
`*.shp`, and read the first match if any; with no match nothing happens. -/
def readShapefile (file : File) : ReadOutcome :=
  match file.asZipShp with
  | .error _ => .exn
  | .ok entries =>
    match entries.filter (fun q => isShpName q.1) with
    | [] => .skip
    | e :: _ =>
      match e.2 with
      | .ok g => .ok g
      | .error _ => .exn

/-- KML/KMZ branch (lines 32-35): `gpd.read_file(file, driver="KML")`. -/
def readKml (file : File) : ReadOutcome :=
  match file.asKML with
  | .ok g => .ok g
  | .error _ => .exn

/-- GeoJSON branch (lines 36-39): `gpd.read_file(file, driver="GeoJSON")`. -/
def readGeojson (file : File) : ReadOutcome :=
  match file.asGeoJSON with
  | .ok g => .ok g
  | .error _ => .exn

/-- CSV branch (lines 40-48): `pd.read_csv`, then require a "geometry"
column, then build a GeoDataFrame from it. -/
def readCsv (file : File) : ReadOutcome :=
  match file.asCSV with
  | .error _ => .exn
  | .ok t =>
    if "geometry" ∈ t.cols then
      match gdfFromTable t with
      | .ok g => .ok g
      | .error _ => .exn
    else .missingGeom

/-- One iteration of the loop of `merge_files`, dispatching on the format
string exactly as the source's if/elif/else chain does (any string other
than the three named formats falls into the CSV branch). -/
def readOne (file : File) (format : String) : ReadOutcome :=
  if format = "Shapefile" then readShapefile file
  else if format = "KML/KMZ" then readKml file
  else if format = "GeoJSON" then readGeojson file
  else readCsv file

/-- How a call to `merge_files` can fail: `fileError` is the
`st.error(f"Error processing ...")`/`return None` path, `missingGeometryColumn`
the CSV-specific `st.error`/`return None`, and `concatRaised` an exception
escaping `pd.concat` on line 54, which sits outside the try/except. -/
inductive PdErr where
  | noObjects
  | crsValueError
deriving DecidableEq

inductive MergeFailure where
  | fileError (name : String)
  | missingGeometryColumn (name : String)
  | concatRaised (e : PdErr)
deriving DecidableEq

/-- The accumulation loop of `merge_files`: process each pair in order,
return at the first failing file, silently pass over `skip` outcomes. -/
def collectGdfs : List (File × String) → Except MergeFailure (List Frame)
  | [] => .ok []
  | p :: rest =>
    match readOne p.1 p.2 with
    | .ok g =>
      match collectGdfs rest with
      | .ok gs => .ok (g :: gs)
      | .error e => .error e
    | .skip => collectGdfs rest
    | .exn => .error (.fileError p.1.name)
    | .missingGeom => .error (.missingGeometryColumn p.1.name)

/-- Insert a column name at the end unless already present. -/
def insertCol (acc : List String) (c : String) : List String :=
  if c ∈ acc then acc else acc ++ [c]

/-- Union of several frames' column lists in first-seen order: the order
pandas `concat` with `join="outer", sort=False` produces. -/
def unionCols (css : List (List String)) : List String :=
  css.foldl (fun acc cs => cs.foldl insertCol acc) []

/-- Look up the cell of column `t` in a row given positionally by `vals`
aligned with `cols`; absent columns read as NaN (`vNull`). -/
def colVal : List String → List Value → String → Value
  | [], _, _ => Value.vNull
  | _ :: _, [], _ => Value.vNull
  | c :: cs, v :: vs, t => if t = c then v else colVal cs vs t

/-- Reindex one row from its source columns `src` to the unified target
columns `tgt`, filling NaN for columns absent in the source. The geometry
cell is untouched. -/
def widenRow (tgt src : List String) (r : Row) : Row :=
  (r.1, tgt.map (colVal src r.2))

/-- The distinct known (non-None) CRS values among the inputs, as
geopandas collects them in `_get_common_crs`. -/
def knownCrsList : List (Option String) → List String
  | [] => []
  | none :: rest => knownCrsList rest
  | some c :: rest =>
    let r := knownCrsList rest
    if c ∈ r then r else c :: r

/-- Model of the geopandas common-CRS rule applied when geometry columns
are concatenated: no known CRS propagates None; exactly one known CRS is
carried (with only a warning when some inputs are None); two distinct
known CRSs raise `ValueError`. -/
def getCommonCrs (crss : List (Option String)) : Except PdErr (Option String) :=
  match knownCrsList crss with
  | [] => .ok none
  | [c] => .ok (some c)
  | _ :: _ :: _ => .error .crsValueError

/-- Model of `pd.concat(gdfs, ignore_index=True)` on GeoDataFrames: raises
`ValueError` on an empty list; otherwise takes the outer union of the
attribute columns in first-seen order, reindexes every row to it filling
NaN, concatenates rows in input order, and gives the geometry column the
common CRS of the inputs. -/
def pd_concat (gdfs : List Frame) : Except PdErr Frame :=
  match gdfs with
  | [] => .error .noObjects
  | g :: gs =>
    match getCommonCrs ((g :: gs).map Frame.crs) with
    | .error e => .error e
    | .ok crs =>
      .ok ⟨unionCols ((g :: gs).map Frame.cols),
           ((g :: gs).map
             (fun fr => fr.rows.map
               (widenRow (unionCols ((g :: gs).map Frame.cols)) fr.cols))).flatten,
           crs⟩

/-- Model of `merge_files(files, input_formats, output_format)` (lines
10-55): zip the files with their formats, read each in order aborting on
the first error, then concatenate with `pd.concat`. The `output_format`
argument is accepted but never used, exactly as in the source. -/
def merge_files (files : List File) (input_formats : List String)
    (output_format : String) : Except MergeFailure Frame :=
  match collectGdfs (files.zip input_formats) with
  | .error e => .error e
  | .ok gdfs =>
    match pd_concat gdfs with
    | .error e => .error (.concatRaised e)
    | .ok merged => .ok merged

/-- Failure of `save_output`: the OGR ESRI Shapefile driver raising,
either because the collection mixes geometry families the format cannot
hold in one file, or because it holds GeometryCollections, which the
format cannot represent at all. On the merger page `save_output` is
called outside any try/except, so these exceptions are uncaught. -/
inductive WriteFailure where
  | incompatibleGeometryTypes
  | unsupportedShapefileGeometry
deriving DecidableEq

/-- The serialized output produced by `save_output`, abstracted to the
structure that reaches the download button: the byte-level encoding of
each format is not modelled, the feature content is carried. -/
inductive Output where
  | shapefileZip (cols : List String) (rows : List Row)
  | kmlDoc (cols : List String) (rows : List Row)
  | geojsonFC (cols : List String) (rows : List Row)
  | csvText (cols : List String) (rows : List Row)
deriving DecidableEq

/-- The ESRI shapefile shape families: a shapefile holds one family per
file. A Polyline shapefile stores LineString and MultiLineString
features alike, a Polygon shapefile stores Polygon and MultiPolygon
alike, and a mixed Point/MultiPoint collection is written as a
MultiPoint shapefile (the writer promotes singular geometries to the
multi variant when singular and multi types are mixed — pyogrio's
`promote_to_multi`, on by default for Shapefile). -/
inductive ShpType where
  | pointType | polylineType | polygonType
deriving DecidableEq

/-- The shapefile shape family a geometry variant is stored as; `none`
for GeometryCollection, which the format cannot represent. -/
def shpType : GeomTag → Option ShpType
  | .point => some .pointType
  | .multiPoint => some .pointType
  | .lineString => some .polylineType
  | .multiLineString => some .polylineType
  | .polygon => some .polygonType
  | .multiPolygon => some .polygonType
  | .geometryCollection => none

/-- Whether `gdf.to_file` with the ESRI Shapefile driver accepts the
geometry column: it raises on any GeometryCollection, and on geometries
spanning more than one shapefile shape family; single/multi mixes within
one family are written (promoted to the multi type). Missing geometries
contribute nothing. -/
def shpWriteCheck (rows : List Row) : Except WriteFailure Unit :=
  if ((rows.filterMap Prod.fst).map geomTag).any
      (fun t => decide (shpType t = none)) then
    .error .unsupportedShapefileGeometry
  else
    match (rows.filterMap Prod.fst).map geomTag with
    | [] => .ok ()
    | t :: ts =>
      if ts.all (fun u => decide (shpType u = shpType t)) then .ok ()
      else .error .incompatibleGeometryTypes

/-- Model of `save_output(gdf, output_format, original_filename)` (lines
57-102): dispatch on the output format string; `gdf.to_file` with the
Shapefile driver raises when the geometry column fails the shapefile
shape-family check; the KML, GeoJSON (`gdf.to_json`) and CSV
(`gdf.to_csv`) writers accept any frame. The produced file name plays no
role and is not modelled. -/
def save_output (gdf : Frame) (output_format : String) : Except WriteFailure Output :=
  if output_format = "Shapefile" then
    match shpWriteCheck gdf.rows with
    | .ok _ => .ok (.shapefileZip gdf.cols gdf.rows)
    | .error e => .error e
  else if output_format = "KML" then .ok (.kmlDoc gdf.cols gdf.rows)
  else if output_format = "GeoJSON" then .ok (.geojsonFC gdf.cols gdf.rows)
  else .ok (.csvText gdf.cols gdf.rows)

/-- How the converter page of `main` can fail: `processingError` is the
generic `st.error(f"Error processing file: ...")` raised by the
try/except around lines 140-168 (it also covers the `NameError` from the
unbound `gdf` when a shapefile zip holds no `.shp` entry, and any
exception escaping `save_output`, which is inside the same try);
`missingGeometryColumn` is the explicit `st.error`/`return` of line 161. -/
inductive ConvertFailure where
  | processingError
  | missingGeometryColumn
deriving DecidableEq

/-- The write stage of the converter page: `save_output` runs inside the
page's try/except, so a write-time exception surfaces as the generic
processing error. -/
def writeStage (gdf : Frame) (output_format : String) : Except ConvertFailure Output :=
  match save_output gdf output_format with
  | .ok o => .ok o
  | .error _ => .error .processingError

/-- Model of the converter page of `main` (lines 139-168): read the
uploaded file according to the selected input format, then write it in
the selected output format, with the whole pipeline guarded by one
try/except. With a shapefile zip holding no `.shp` entry the variable
`gdf` is never bound, and the later `save_output(gdf, ...)` raises a
`NameError` that the except clause reports as a processing error. -/
def convertFile (uploaded_file : File) (input_format output_format : String) :
    Except ConvertFailure Output :=
  if input_format = "Shapefile" then
    match uploaded_file.asZipShp with
    | .error _ => .error .processingError
    | .ok entries =>
      match entries.filter (fun q => isShpName q.1) with
      | [] => .error .processingError
      | e :: _ =>
        match e.2 with
        | .error _ => .error .processingError
        | .ok g => writeStage g output_format
  else if input_format = "KML/KMZ" then
    match uploaded_file.asKML with
    | .error _ => .error .processingError
    | .ok g => writeStage g output_format
  else if input_format = "GeoJSON" then
    match uploaded_file.asGeoJSON with
    | .error _ => .error .processingError
    | .ok g => writeStage g output_format
  else
    match uploaded_file.asCSV with
    | .error _ => .error .processingError
    | .ok t =>
      if "geometry" ∈ t.cols then
        match gdfFromTable t with
        | .error _ => .error .processingError
        | .ok g => writeStage g output_format
      else .error .missingGeometryColumn

/-
Properties the claims are formalised with.
-/

/-- Schema-union completeness of a merged frame with respect to the list
of source frames: the merged attribute columns are the first-seen-order
union of the sources' columns, and every merged row is a source row
reindexed to those columns, with columns absent from its source frame
reading as null. -/
def SchemaUnionComplete (gdfs : List Frame) (merged : Frame) : Prop :=
  merged.cols = unionCols (gdfs.map Frame.cols) ∧
  ∀ r ∈ merged.rows,
    r.2.length = merged.cols.length ∧
    ∃ g ∈ gdfs, ∃ r0 ∈ g.rows,
      r.1 = r0.1 ∧ r.2 = merged.cols.map (colVal g.cols r0.2) ∧
      ∀ c, c ∉ g.cols → colVal g.cols r0.2 c = Value.vNull

/-- The merged rows are exactly the concatenation, in input-collection
order, of each source frame's rows in their original order, each widened
to the merged columns. -/
def ConcatPreservesOrder (gdfs : List Frame) (merged : Frame) : Prop :=
  merged.rows =
    (gdfs.map (fun g => g.rows.map (widenRow merged.cols g.cols))).flatten

/-- What the merge actually does about CRSs: the successfully-read frames
are concatenated with their geometries unchanged (no reprojection exists
in the program), and the merged CRS is the pandas common-CRS of the
inputs — not the first collection's CRS imposed by reprojection, and with
no failure when unknown and known CRSs are mixed. -/
def NoCrsReconciliation (files : List File) (formats : List String)
    (merged : Frame) : Prop :=
  ∃ gdfs, collectGdfs (files.zip formats) = .ok gdfs ∧
    getCommonCrs (gdfs.map Frame.crs) = .ok merged.crs ∧
    merged.rows.map Prod.fst = (gdfs.map (fun g => g.rows.map Prod.fst)).flatten

/-
Concrete inputs used by the per-claim counterexamples and witnesses.
-/

/-- A zip archive that extracts to a single non-shapefile entry: zero
`.shp` files. -/
def zNoShp1 : File :=
  ⟨"b1.zip", .ok [("readme.txt", .error ())], .error (), .error (), .error ()⟩

def gFrame1 : Frame :=
  ⟨["name"], [(some (.base (.point 5 5)), [.vStr "x"])], some "EPSG:4326"⟩

def gFile1 : File :=
  ⟨"a1.geojson", .error (), .error (), .ok gFrame1, .error ()⟩

/-- A GeoJSON collection with a known CRS. -/
def gA2 : Frame :=
  ⟨["name"], [(some (.base (.point 0 0)), [.vStr "a"])], some "EPSG:4326"⟩

/-- A GeoJSON collection whose CRS is unknown (None). -/
def gB2 : Frame :=
  ⟨["name"], [(some (.base (.point 1 1)), [.vStr "b"])], none⟩

def fA2 : File := ⟨"a2.geojson", .error (), .error (), .ok gA2, .error ()⟩

def fB2 : File := ⟨"b2.geojson", .error (), .error (), .ok gB2, .error ()⟩

/-- The merged frame `pd.concat` produces for `[gA2, gB2]`: the known CRS
is carried forward with only a warning, geometries unchanged. -/
def M2 : Frame :=
  ⟨["name"],
   [(some (.base (.point 0 0)), [.vStr "a"]),
    (some (.base (.point 1 1)), [.vStr "b"])],
   some "EPSG:4326"⟩

/-- A two-feature collection with attribute `name` (spec scenario). -/
def gA3 : Frame :=
  ⟨["name"],
   [(some (.base (.point 0 0)), [.vStr "A"]),
    (some (.base (.point 1 0)), [.vStr "B"])],
   some "EPSG:4326"⟩

/-- A one-feature collection with attribute `population`. -/
def gB3 : Frame :=
  ⟨["population"], [(some (.base (.point 2 2)), [.vInt 7])], some "EPSG:4326"⟩

def fA3 : File := ⟨"a3.geojson", .error (), .error (), .ok gA3, .error ()⟩

def fB3 : File := ⟨"b3.geojson", .error (), .error (), .ok gB3, .error ()⟩

/-- The merged frame for `[gA3, gB3]`: unified columns, null-filled. -/
def M3 : Frame :=
  ⟨["name", "population"],
   [(some (.base (.point 0 0)), [.vStr "A", .vNull]),
    (some (.base (.point 1 0)), [.vStr "B", .vNull]),
    (some (.base (.point 2 2)), [.vNull, .vInt 7])],
   some "EPSG:4326"⟩

def gA4 : Frame :=
  ⟨["name"],
   [(some (.base (.point 0 0)), [.vStr "first"]),
    (some (.base (.point 0 1)), [.vStr "second"])],
   some "EPSG:4326"⟩

def gB4 : Frame :=
  ⟨["name"], [(some (.base (.point 0 2)), [.vStr "third"])], some "EPSG:4326"⟩

def fA4 : File := ⟨"a4.geojson", .error (), .error (), .ok gA4, .error ()⟩

def fB4 : File := ⟨"b4.geojson", .error (), .error (), .ok gB4, .error ()⟩

/-- The merged frame for `[gA4, gB4]`. -/
def M4 : Frame :=
  ⟨["name"],
   [(some (.base (.point 0 0)), [.vStr "first"]),
    (some (.base (.point 0 1)), [.vStr "second"]),
    (some (.base (.point 0 2)), [.vStr "third"])],
   some "EPSG:4326"⟩

/-- A shapefile zip whose archive holds sidecar files but zero `.shp`
entries. -/
def zNoShp5 : File :=
  ⟨"roads.zip", .ok [("roads.dbf", .error ()), ("roads.shx", .error ())],
   .error (), .error (), .error ()⟩

def gFrame5 : Frame :=
  ⟨["kind"], [(some (.base (.point 3 4)), [.vStr "g"])], some "EPSG:4326"⟩

def gFile5 : File :=
  ⟨"a5.geojson", .error (), .error (), .ok gFrame5, .error ()⟩

/-- A CSV table with columns `id,name` and no geometry column. -/
def t6 : Table := ⟨["id", "name"], [[.vInt 1, .vStr "A"]]⟩

def f6 : File := ⟨"table.csv", .error (), .error (), .error (), .ok t6⟩

/-- The CSV table of the spec's concrete scenario: columns
`id,name,geometry`, rows `[1,"A","POINT (0 0)"],[2,"B","POINT (1 1)"]`;
the geometry cells are WKT strings, as `pd.read_csv` produces them. -/
def table7 : Table :=
  ⟨["id", "name", "geometry"],
   [[.vInt 1, .vStr "A", .vStr "POINT (0 0)"],
    [.vInt 2, .vStr "B", .vStr "POINT (1 1)"]]⟩

def f7 : File := ⟨"points.csv", .error (), .error (), .error (), .ok table7⟩

def frA8 : Frame :=
  ⟨["marker"], [(some (.base (.point 1 1)), [.vStr "a"])], none⟩

def frB8 : Frame :=
  ⟨["marker"], [(some (.base (.point 2 2)), [.vStr "b"])], none⟩

/-- A shapefile zip extracting to two `.shp` entries whose
directory-enumeration order is `b.shp` before `a.shp` (Python's
`Path.glob` yields entries in arbitrary, not sorted, order). -/
def z8 : File :=
  ⟨"two.zip", .ok [("b.shp", .ok frB8), ("a.shp", .ok frA8)],
   .error (), .error (), .error ()⟩

def frW8 : Frame :=
  ⟨["k"], [(some (.base (.point 9 9)), [.vInt 9])], some "EPSG:32633"⟩

/-- A shapefile zip with sidecar entries around a single `.shp` entry. -/
def zW8 : File :=
  ⟨"one.zip", .ok [("w.prj", .error ()), ("w.shp", .ok frW8)],
   .error (), .error (), .error ()⟩

/-- A CSV upload on which `pd.read_csv` itself raises. -/
def fBadCsv1 : File := ⟨"bad1.csv", .error (), .error (), .error (), .error ()⟩

/-- A Point collection. -/
def gP9 : Frame :=
  ⟨["name"], [(some (.base (.point 0 0)), [.vStr "p"])], some "EPSG:4326"⟩

/-- A Polygon collection. -/
def gQ9 : Frame :=
  ⟨["name"],
   [(some (.base (.polygon [[(0, 0), (1, 0), (1, 1)]])), [.vStr "q"])],
   some "EPSG:4326"⟩

def fP9 : File := ⟨"p9.geojson", .error (), .error (), .ok gP9, .error ()⟩

def fQ9 : File := ⟨"q9.geojson", .error (), .error (), .ok gQ9, .error ()⟩

/-- The merged Point-plus-Polygon collection. -/
def M9 : Frame :=
  ⟨["name"],
   [(some (.base (.point 0 0)), [.vStr "p"]),
    (some (.base (.polygon [[(0, 0), (1, 0), (1, 1)]])), [.vStr "q"])],
   some "EPSG:4326"⟩

/-- A LineString collection. -/
def gL9 : Frame :=
  ⟨["name"], [(some (.base (.lineString [(0, 0), (1, 1)])), [.vStr "l"])],
   some "EPSG:4326"⟩

/-- A MultiLineString collection. -/
def gM9 : Frame :=
  ⟨["name"],
   [(some (.base (.multiLineString [[(2, 2), (3, 3)]])), [.vStr "m"])],
   some "EPSG:4326"⟩

def fL9 : File := ⟨"l9.geojson", .error (), .error (), .ok gL9, .error ()⟩

def fM9 : File := ⟨"m9.geojson", .error (), .error (), .ok gM9, .error ()⟩

/-- The merged LineString-plus-MultiLineString collection: mixed variant
tags, but a single shapefile shape family (Polyline). -/
def ML9 : Frame :=
  ⟨["name"],
   [(some (.base (.lineString [(0, 0), (1, 1)])), [.vStr "l"]),
    (some (.base (.multiLineString [[(2, 2), (3, 3)]])), [.vStr "m"])],
   some "EPSG:4326"⟩

/-
Helper lemmas shared by the claim theorems.
-/

/-- Looking up a column absent from the column list reads as null. -/
theorem colVal_not_mem : ∀ (cs : List String) (vs : List Value) (t : String),
    t ∉ cs → colVal cs vs t = Value.vNull
  | [], vs, t, _ => by cases vs <;> rfl
  | c :: cs, [], t, _ => rfl
  | c :: cs, v :: vs, t, h => by
    rw [List.mem_cons, not_or] at h
    simp only [colVal]
    rw [if_neg h.1]
    exact colVal_not_mem cs vs t h.2

/-- If some pair in the loop's worklist reads to an exception or to the
missing-geometry error, the accumulation loop returns an error. -/
theorem collect_error_of_fail :
    ∀ (l : List (File × String)) (p : File × String), p ∈ l →
      (readOne p.1 p.2 = .exn ∨ readOne p.1 p.2 = .missingGeom) →
      ∃ e, collectGdfs l = .error e := by
  intro l
  induction l with
  | nil => intro p hp _; exact absurd hp (List.not_mem_nil p)
  | cons q rest ih =>
    intro p hp hfail
    rcases List.mem_cons.mp hp with heq | hmem
    · subst heq
      rcases hfail with h | h
      · exact ⟨.fileError p.1.name, by simp [collectGdfs, h]⟩
      · exact ⟨.missingGeometryColumn p.1.name, by simp [collectGdfs, h]⟩
    · obtain ⟨e, he⟩ := ih p hmem hfail
      cases hq : readOne q.1 q.2 with
      | ok g => exact ⟨e, by simp [collectGdfs, hq, he]⟩
      | skip => exact ⟨e, by simp [collectGdfs, hq, he]⟩
      | exn => exact ⟨.fileError q.1.name, by simp [collectGdfs, hq]⟩
      | missingGeom => exact ⟨.missingGeometryColumn q.1.name, by simp [collectGdfs, hq]⟩

/-- A failing accumulation loop makes `merge_files` return that error. -/
theorem merge_files_error_of_collect (files : List File) (formats : List String)
    (ofmt : String) (e : MergeFailure)
    (h : collectGdfs (files.zip formats) = .error e) :
    merge_files files formats ofmt = .error e := by
  simp [merge_files, h]

/-- When every pair in the worklist reads successfully, the loop collects
exactly those frames in order. -/
theorem collect_of_all_ok :
    ∀ (l : List (File × String)) (gdfs : List Frame),
      l.map (fun p => readOne p.1 p.2) = gdfs.map ReadOutcome.ok →
      collectGdfs l = .ok gdfs := by
  intro l
  induction l with
  | nil =>
    intro gdfs h
    cases gdfs with
    | nil => rfl
    | cons g gs => simp at h
  | cons p rest ih =>
    intro gdfs h
    cases gdfs with
    | nil => simp at h
    | cons g gs =>
      simp only [List.map_cons, List.cons.injEq] at h
      simp [collectGdfs, h.1, ih gs h.2]

/-- Structure of a successful concatenation: the input list is nonempty,
its common CRS exists, and the result is the column union with the
widened, concatenated rows. -/
theorem pd_concat_ok_elim (gdfs : List Frame) (m : Frame)
    (h : pd_concat gdfs = .ok m) :
    ∃ g gs crs, gdfs = g :: gs ∧
      getCommonCrs (gdfs.map Frame.crs) = .ok crs ∧
      m = ⟨unionCols (gdfs.map Frame.cols),
        (gdfs.map (fun fr => fr.rows.map
          (widenRow (unionCols (gdfs.map Frame.cols)) fr.cols))).flatten,
        crs⟩ := by
  unfold pd_concat at h
  split at h
  · exact absurd h (by simp)
  · rename_i g gs
    split at h
    · exact absurd h (by simp)
    · rename_i crs hcrs
      refine ⟨g, gs, crs, rfl, hcrs, ?_⟩
      injection h with h
      exact h.symm

/-- Structure of a successful merge: the loop collected a nonempty list
of frames, their common CRS existed, and the result is the column union
with the widened, concatenated rows. -/
theorem merge_ok_elim (files : List File) (formats : List String) (ofmt : String)
    (merged : Frame) (h : merge_files files formats ofmt = .ok merged) :
    ∃ g gs crs, collectGdfs (files.zip formats) = .ok (g :: gs) ∧
      getCommonCrs ((g :: gs).map Frame.crs) = .ok crs ∧
      merged = ⟨unionCols ((g :: gs).map Frame.cols),
        ((g :: gs).map (fun fr => fr.rows.map
          (widenRow (unionCols ((g :: gs).map Frame.cols)) fr.cols))).flatten,
        crs⟩ := by
  unfold merge_files at h
  split at h
  · exact absurd h (by simp)
  · rename_i gdfs hc
    split at h
    · exact absurd h (by simp)
    · rename_i m hp
      obtain ⟨g, gs, crs, hgd, hcrs, hm⟩ := pd_concat_ok_elim gdfs m hp
      subst hgd
      injection h with h
      subst h
      exact ⟨g, gs, crs, hc, hcrs, hm⟩

/-- Widening rows does not touch their geometry cells. -/
theorem map_fst_widenRows (tgt src : List String) (rows : List Row) :
    (rows.map (widenRow tgt src)).map Prod.fst = rows.map Prod.fst := by
  induction rows with
  | nil => rfl
  | cons r rs ih => simp [widenRow, ih]

/-- The geometry column of the concatenation is the concatenation of the
geometry columns. -/
theorem map_fst_flatten (cols : List String) (L : List Frame) :
    ((L.map (fun fr => fr.rows.map (widenRow cols fr.cols))).flatten).map Prod.fst
      = (L.map (fun fr => fr.rows.map Prod.fst)).flatten := by
  induction L with
  | nil => rfl
  | cons fr L ih =>
    simp only [List.map_cons, List.flatten_cons, List.map_append, ih,
      map_fst_widenRows]

/-- Two members whose shapefile families are distinct (and known), with
no GeometryCollection anywhere in the column, make the shapefile write
check fail with the incompatible-types error. -/
theorem shpWriteCheck_error_of_two_families (rows : List Row) (r1 r2 : Row)
    (a b : Geometry) (fa fb : ShpType)
    (h1 : r1 ∈ rows) (h2 : r2 ∈ rows) (ha : r1.1 = some a) (hb : r2.1 = some b)
    (hfa : shpType (geomTag a) = some fa) (hfb : shpType (geomTag b) = some fb)
    (hne : fa ≠ fb)
    (hnogc : ∀ t ∈ (rows.filterMap Prod.fst).map geomTag, shpType t ≠ none) :
    shpWriteCheck rows = .error .incompatibleGeometryTypes := by
  have hmem1 : geomTag a ∈ (rows.filterMap Prod.fst).map geomTag :=
    List.mem_map_of_mem geomTag (List.mem_filterMap.mpr ⟨r1, h1, ha⟩)
  have hmem2 : geomTag b ∈ (rows.filterMap Prod.fst).map geomTag :=
    List.mem_map_of_mem geomTag (List.mem_filterMap.mpr ⟨r2, h2, hb⟩)
  have hany : ((rows.filterMap Prod.fst).map geomTag).any
      (fun t => decide (shpType t = none)) = false := by
    rcases hx : ((rows.filterMap Prod.fst).map geomTag).any
        (fun t => decide (shpType t = none)) with _ | _
    · rfl
    · obtain ⟨t, ht, hpt⟩ := List.any_eq_true.mp hx
      exact absurd (of_decide_eq_true hpt) (hnogc t ht)
  cases hts : (rows.filterMap Prod.fst).map geomTag with
  | nil =>
    rw [hts] at hmem1
    exact absurd hmem1 (List.not_mem_nil _)
  | cons t ts =>
    have hall : ts.all (fun u => decide (shpType u = shpType t)) = false := by
      rcases hb2 : ts.all (fun u => decide (shpType u = shpType t)) with _ | _
      · rfl
      · have hforall : ∀ u ∈ t :: ts, shpType u = shpType t := by
          intro u hu
          rcases List.mem_cons.mp hu with hh | hh
          · rw [hh]
          · exact of_decide_eq_true (List.all_eq_true.mp hb2 u hh)
        rw [hts] at hmem1 hmem2
        have e1 := hforall _ hmem1
        have e2 := hforall _ hmem2
        rw [hfa] at e1
        rw [hfb] at e2
        exact absurd (Option.some.inj (e1.trans e2.symm)) hne
    rw [hts] at hany
    simp [shpWriteCheck, hts, hany, hall]

/-
Claim theorems.
-/

/-- Claim C1, counterexample: a Shapefile archive with zero `.shp`
entries cannot be read (`readOne` yields no collection for it), yet the
merge of it with a readable GeoJSON input does not fail — it returns the
GeoJSON collection alone, silently dropping the unreadable input. This
contradicts the claim that no failed input collection is ever silently
dropped from the merged result. -/
theorem c1_counterexample :
    readOne zNoShp1 "Shapefile" = .skip ∧
    merge_files [zNoShp1, gFile1] ["Shapefile", "GeoJSON"] "GeoJSON" =
      .ok gFrame1 :=
  ⟨rfl, rfl⟩

/-- Claim C1, amended: any input whose processing raises an exception, or
whose CSV table lacks a geometry column, makes the whole merge fail with
an error; a Shapefile archive with zero `.shp` entries is however not
treated as a failure — it is silently skipped (see the counterexample). -/
theorem c1_merge_aborts_on_parse_failure (files : List File)
    (formats : List String) (ofmt : String) (p : File × String)
    (hmem : p ∈ files.zip formats)
    (hfail : readOne p.1 p.2 = .exn ∨ readOne p.1 p.2 = .missingGeom) :
    ∃ e, merge_files files formats ofmt = .error e := by
  obtain ⟨e, he⟩ := collect_error_of_fail _ p hmem hfail
  exact ⟨e, merge_files_error_of_collect files formats ofmt e he⟩

/-- Witness for C1's amended theorem at a concrete failing CSV upload. -/
theorem c1_witness :
    ∃ e, merge_files [fBadCsv1] ["CSV"] "GeoJSON" = .error e :=
  c1_merge_aborts_on_parse_failure [fBadCsv1] ["CSV"] "GeoJSON"
    (fBadCsv1, "CSV") (by decide) (Or.inl (by decide))

/-- Claim C2, counterexample: merging a collection with the known CRS
EPSG:4326 and a collection with unknown CRS (None) — some but not all
inputs unknown — does not fail with any CRS mismatch error: the merge
succeeds and carries the known CRS forward. -/
theorem c2_counterexample :
    merge_files [fA2, fB2] ["GeoJSON", "GeoJSON"] "GeoJSON" = .ok M2 ∧
    gA2.crs = some "EPSG:4326" ∧ gB2.crs = none ∧ M2.crs = some "EPSG:4326" :=
  ⟨rfl, rfl, rfl, rfl⟩

/-- Claim C2, amended: the merge performs no CRS reconciliation of its
own — whenever it succeeds, the geometries of the output are exactly the
input geometries unchanged (nothing is reprojected), and the output CRS
is the pandas common-CRS of the inputs (unknown CRSs are passed over with
a warning; two distinct known CRSs make the concatenation raise). -/
theorem c2_no_crs_reconciliation (files : List File) (formats : List String)
    (ofmt : String) (merged : Frame)
    (h : merge_files files formats ofmt = .ok merged) :
    NoCrsReconciliation files formats merged := by
  obtain ⟨g, gs, crs, hc, hcrs, hm⟩ := merge_ok_elim files formats ofmt merged h
  subst hm
  exact ⟨g :: gs, hc, hcrs, map_fst_flatten _ _⟩

/-- Witness for C2's amended theorem at the concrete mixed-CRS merge. -/
theorem c2_witness : NoCrsReconciliation [fA2, fB2] ["GeoJSON", "GeoJSON"] M2 :=
  c2_no_crs_reconciliation [fA2, fB2] ["GeoJSON", "GeoJSON"] "GeoJSON" M2 rfl

/-- Claim C3: in every successful merge, each output Feature carries
exactly the keys of the unified schema — the first-seen-order union of
the input collections' attribute columns — with null for every key absent
from its source collection. -/
theorem c3_schema_union_complete (files : List File) (formats : List String)
    (ofmt : String) (merged : Frame) (gdfs : List Frame)
    (hok : merge_files files formats ofmt = .ok merged)
    (hc : collectGdfs (files.zip formats) = .ok gdfs) :
    SchemaUnionComplete gdfs merged := by
  obtain ⟨g, gs, crs, hc2, hcrs, hm⟩ := merge_ok_elim files formats ofmt merged hok
  rw [hc] at hc2
  injection hc2 with hg
  subst hg
  subst hm
  refine ⟨rfl, ?_⟩
  intro r hr
  rw [List.mem_flatten] at hr
  obtain ⟨lr, hlr, hrl⟩ := hr
  rw [List.mem_map] at hlr
  obtain ⟨fr, hfr, hfr2⟩ := hlr
  subst hfr2
  rw [List.mem_map] at hrl
  obtain ⟨r0, hr0, hr02⟩ := hrl
  subst hr02
  refine ⟨List.length_map _ _, fr, hfr, r0, hr0, rfl, rfl, ?_⟩
  intro c hcn
  exact colVal_not_mem fr.cols r0.2 c hcn

/-- Witness for C3 at the spec's own concrete scenario: a two-feature
collection with attribute `name` merged with a one-feature collection
with attribute `population`. -/
theorem c3_witness : SchemaUnionComplete [gA3, gB3] M3 :=
  c3_schema_union_complete [fA3, fB3] ["GeoJSON", "GeoJSON"] "GeoJSON" M3
    [gA3, gB3] rfl rfl

/-- Claim C4: when every input parses successfully and the merge
succeeds, the merged rows are the concatenation of the inputs' rows in
input-collection order, each collection's rows in their original relative
order (schema-widened, geometry untouched). -/
theorem c4_features_concatenated_in_order (files : List File)
    (formats : List String) (ofmt : String) (gdfs : List Frame) (merged : Frame)
    (hread : (files.zip formats).map (fun p => readOne p.1 p.2) =
      gdfs.map ReadOutcome.ok)
    (hok : merge_files files formats ofmt = .ok merged) :
    ConcatPreservesOrder gdfs merged := by
  have hc := collect_of_all_ok _ _ hread
  obtain ⟨g, gs, crs, hc2, hcrs, hm⟩ := merge_ok_elim files formats ofmt merged hok
  rw [hc] at hc2
  injection hc2 with hg
  subst hg
  subst hm
  rfl

/-- Witness for C4 at a concrete two-collection merge. -/
theorem c4_witness : ConcatPreservesOrder [gA4, gB4] M4 :=
  c4_features_concatenated_in_order [fA4, fB4] ["GeoJSON", "GeoJSON"] "GeoJSON"
    [gA4, gB4] M4 rfl rfl

/-- Claim C5 (code bug): the program produces no NoShapefileFound error.
At a concrete archive containing sidecar files but zero `.shp` entries,
the merge branch silently skips the input and merges the remaining inputs
successfully, and the single-file converter fails only with the generic
processing error (via the NameError from the unbound `gdf`). -/
theorem c5_zero_shp_not_an_error :
    readOne zNoShp5 "Shapefile" = .skip ∧
    merge_files [zNoShp5, gFile5] ["Shapefile", "GeoJSON"] "Shapefile" =
      .ok gFrame5 ∧
    convertFile zNoShp5 "Shapefile" "GeoJSON" = .error .processingError :=
  ⟨rfl, rfl, rfl⟩

/-- Claim C6: a CSV input whose table lacks a geometry column makes the
read report the missing-geometry error for the whole file, and any merge
containing such an input fails. -/
theorem c6_csv_missing_geometry_aborts_merge (files : List File)
    (formats : List String) (ofmt : String) (f : File) (t : Table)
    (hmem : (f, "CSV") ∈ files.zip formats)
    (ht : f.asCSV = .ok t) (hg : "geometry" ∉ t.cols) :
    readOne f "CSV" = .missingGeom ∧
    ∃ e, merge_files files formats ofmt = .error e := by
  have hread : readOne f "CSV" = .missingGeom := by
    simp only [readOne]
    rw [if_neg (show ¬("CSV" = "Shapefile") by decide),
      if_neg (show ¬("CSV" = "KML/KMZ") by decide),
      if_neg (show ¬("CSV" = "GeoJSON") by decide)]
    simp only [readCsv, ht]
    rw [if_neg hg]
  refine ⟨hread, ?_⟩
  obtain ⟨e, he⟩ := collect_error_of_fail _ (f, "CSV") hmem (Or.inr hread)
  exact ⟨e, merge_files_error_of_collect _ _ _ _ he⟩

/-- Witness for C6 at a concrete geometry-less CSV. -/
theorem c6_witness :
    readOne f6 "CSV" = .missingGeom ∧
    ∃ e, merge_files [f6] ["CSV"] "GeoJSON" = .error e :=
  c6_csv_missing_geometry_aborts_merge [f6] ["CSV"] "GeoJSON" f6 t6
    (by decide) rfl (by decide)

/-- Claim C7 (code bug): on the spec's concrete CSV (columns
`id,name,geometry`, WKT point rows), the GeoDataFrame construction raises
because the WKT strings are never parsed into geometry objects, so the
conversion to GeoJSON reports a processing error instead of producing a
two-Point FeatureCollection. -/
theorem c7_csv_wkt_conversion_fails :
    gdfFromTable table7 = .error () ∧
    convertFile f7 "CSV" "GeoJSON" = .error .processingError :=
  ⟨rfl, rfl⟩

/-- Claim C8, counterexample: a zip extracting to `.shp` entries whose
directory-enumeration order is `b.shp` before `a.shp` is read through
`b.shp` — not through the lexicographically first base name `a.shp` — so
the selection is not lexicographic. -/
theorem c8_counterexample :
    readOne z8 "Shapefile" = .ok frB8 ∧ frB8 ≠ frA8 :=
  ⟨rfl, by decide⟩

/-- Claim C8, amended: the read selects the first `.shp` entry in
directory-enumeration order (the arbitrary order `Path.glob` yields) and
ignores the remaining entries silently. -/
theorem c8_first_glob_entry_selected (file : File)
    (entries : List (String × Except Unit Frame))
    (e : String × Except Unit Frame) (rest : List (String × Except Unit Frame))
    (g : Frame)
    (hz : file.asZipShp = .ok entries)
    (hf : entries.filter (fun q => isShpName q.1) = e :: rest)
    (he : e.2 = .ok g) :
    readOne file "Shapefile" = .ok g := by
  simp only [readOne]
  rw [if_pos trivial]
  simp only [readShapefile, hz, hf, he]

/-- Witness for C8's amended theorem at a concrete archive. -/
theorem c8_witness : readOne zW8 "Shapefile" = .ok frW8 :=
  c8_first_glob_entry_selected zW8 [("w.prj", .error ()), ("w.shp", .ok frW8)]
    ("w.shp", .ok frW8) [] frW8 rfl rfl rfl

/-- Claim C9, counterexample: a merged collection mixing the LineString
and MultiLineString variants — mixed geometry variants in the claim's
sense — is written as Shapefile successfully (both variants are stored
as the Polyline shape family), contradicting the claim that every
mixed-variant merged collection fails the Shapefile write. -/
theorem c9_counterexample :
    merge_files [fL9, fM9] ["GeoJSON", "GeoJSON"] "Shapefile" = .ok ML9 ∧
    geomTag (.base (.lineString [(0, 0), (1, 1)])) ≠
      geomTag (.base (.multiLineString [[(2, 2), (3, 3)]])) ∧
    save_output ML9 "Shapefile" = .ok (.shapefileZip ML9.cols ML9.rows) :=
  ⟨rfl, by decide, rfl⟩

/-- Claim C9, amended: a merged collection holding two geometries of
distinct shapefile shape families (such as Points and Polygons), with no
GeometryCollection among its geometries, fails at write time with the
incompatible-geometry-types error when written as Shapefile, while
writing the same collection as GeoJSON succeeds. Single/multi mixes
within one family are instead written successfully (see the
counterexample). -/
theorem c9_cross_family_mix_fails_shapefile_write (files : List File)
    (formats : List String) (ofmt : String) (merged : Frame) (r1 r2 : Row)
    (a b : Geometry) (fa fb : ShpType)
    (hm : merge_files files formats ofmt = .ok merged)
    (h1 : r1 ∈ merged.rows) (h2 : r2 ∈ merged.rows)
    (ha : r1.1 = some a) (hb : r2.1 = some b)
    (hfa : shpType (geomTag a) = some fa) (hfb : shpType (geomTag b) = some fb)
    (hne : fa ≠ fb)
    (hnogc : ∀ t ∈ (merged.rows.filterMap Prod.fst).map geomTag,
      shpType t ≠ none) :
    save_output merged "Shapefile" = .error .incompatibleGeometryTypes ∧
    save_output merged "GeoJSON" = .ok (.geojsonFC merged.cols merged.rows) := by
  have hcheck := shpWriteCheck_error_of_two_families merged.rows r1 r2 a b fa fb
    h1 h2 ha hb hfa hfb hne hnogc
  constructor
  · simp only [save_output]
    rw [if_pos trivial, hcheck]
  · simp [save_output]

/-- Witness for C9's amended theorem at a concrete merged Point-plus-
Polygon collection. -/
theorem c9_witness :
    save_output M9 "Shapefile" = .error .incompatibleGeometryTypes ∧
    save_output M9 "GeoJSON" = .ok (.geojsonFC M9.cols M9.rows) :=
  c9_cross_family_mix_fails_shapefile_write [fP9, fQ9] ["GeoJSON", "GeoJSON"]
    "Shapefile" M9
    (some (.base (.point 0 0)), [.vStr "p"])
    (some (.base (.polygon [[(0, 0), (1, 0), (1, 1)]])), [.vStr "q"])
    (.base (.point 0 0)) (.base (.polygon [[(0, 0), (1, 0), (1, 1)]]))
    .pointType .polygonType
    rfl (by decide) (by decide) rfl rfl rfl rfl (by decide) (by decide)

/-- Claim C10: the merge result is independent of the declared output
format — `merge_files` accepts the argument but never consults it. -/
theorem c10_output_format_no_influence (files : List File)
    (formats : List String) (o1 o2 : String) :
    merge_files files formats o1 = merge_files files formats o2 := rfl

end GisMerger
